import Mathlib

/-!
Shallow embedding of the cbz_convertor repository (src/cbz_convertor/core.py and
src/cbz_convertor/modes.py) and proofs about its specification claims.

Modelling conventions:
* Python strings are Lean `String`s; only ASCII case folding and ASCII decimal
  digits are modelled (the repository's patterns and extension sets are ASCII).
* The filesystem is modelled explicitly: source archives carry existence and
  validity flags, the ephemeral working directory is an association list from
  file names to page provenance, and the output archive is the list of entries
  written, in order.
* Exceptions are modelled with `Except`; the exception classes of
  exceptions.py become the constructors of `CbzError`.  Message payloads of
  OS-level exceptions (IOError text, BadZipFile text) that are not determined
  by the modelled inputs are abstracted as plain strings supplied by the
  input model, or omitted from the formatted message.
* `Path.rename` is modelled with POSIX overwrite semantics, and `ZipFile.extract`
  overwrites an existing file of the same name, as CPython does.
-/

namespace CbzConvertor

/-- Error type mirroring exceptions.py: `ChapterExtractionError`,
`InvalidJSONError` and `CBZProcessingError`, each carrying its message. -/
inductive CbzError where
  | CBZProcessingError : String → CbzError
  | ChapterExtractionError : String → CbzError
  | InvalidJSONError : String → CbzError
deriving DecidableEq, Repr

/-! ### Character and string utilities (ASCII models of Python primitives) -/

/-- ASCII lower-casing of a character, as `str.lower` does for ASCII input. -/
def lowerChar (c : Char) : Char :=
  if 65 ≤ c.toNat ∧ c.toNat ≤ 90 then Char.ofNat (c.toNat + 32) else c

/-- ASCII lower-casing of a string (model of `str.lower` on ASCII data). -/
def lowerStr (s : String) : String :=
  String.mk (s.data.map lowerChar)

/-- Lexicographic strict comparison of character lists by code point, the
order CPython uses for `str` comparison. -/
def charListLt : List Char → List Char → Bool
  | _, [] => false
  | [], _ :: _ => true
  | a :: as, b :: bs =>
    if a.toNat < b.toNat then true
    else if b.toNat < a.toNat then false
    else charListLt as bs

/-- Model of Python `a <= b` on strings. -/
def strLeB (a b : String) : Bool :=
  !(charListLt b.data a.data)

/-- Boolean substring test (model of Python `needle in haystack` on `str`). -/
def strContainsB (hay needle : String) : Bool :=
  (hay.data.tails).any (fun t => needle.data.isPrefixOf t)

/-- Python whitespace characters stripped by `int(str)` (ASCII part). -/
def isPyWs (c : Char) : Bool :=
  c = ' ' || c = '\t' || c = '\n' || c = '\r' || c.toNat = 11 || c.toNat = 12

/-- Numeric value of a run of ASCII digits. -/
def digitsToNat (ds : List Char) : Nat :=
  ds.foldl (fun acc c => acc * 10 + (c.toNat - 48)) 0

/-- Digit-with-underscore tail accepted by Python `int` after the first digit:
an underscore must be followed by a digit, digits accumulate. -/
def pyDigitsGo (acc : Nat) : List Char → Option Nat
  | [] => some acc
  | '_' :: c :: rest =>
    if c.isDigit then pyDigitsGo (acc * 10 + (c.toNat - 48)) rest else none
  | c :: rest =>
    if c.isDigit then pyDigitsGo (acc * 10 + (c.toNat - 48)) rest else none

/-- Nonempty digit sequence with optional single underscores between digits. -/
def pyParseDigits : List Char → Option Nat
  | c :: rest => if c.isDigit then pyDigitsGo (c.toNat - 48) rest else none
  | [] => none

/-- Model of CPython `int(s)` for ASCII strings: strip whitespace, optional
sign, then digits with optional underscore separators. -/
def pyIntOfString (s : String) : Option Int :=
  let cs := ((s.data.dropWhile isPyWs).reverse.dropWhile isPyWs).reverse
  match cs with
  | '-' :: rest => (pyParseDigits rest).map (fun n => -(n : Int))
  | '+' :: rest => (pyParseDigits rest).map (fun n => (n : Int))
  | rest => (pyParseDigits rest).map (fun n => (n : Int))

/-! ### pathlib models -/

/-- Split a path on slashes, dropping empty components (pathlib keeps a
normalised component list). -/
def pathComps (s : String) : List String :=
  ((s.data.splitOn '/').map String.mk).filter (fun c => c ≠ "")

/-- Model of `pathlib.Path(s).name`: the final path component. -/
def pathName (s : String) : String :=
  (pathComps s).getLast?.getD ""

/-- Index (from the start) of the last dot of a character list, if any. -/
def lastDotIdx (cs : List Char) : Option Nat :=
  (cs.enum.filter (fun p => p.2 = '.')).getLast?.map (fun p => p.1)

/-- Model of `pathlib.Path(s).suffix`: the extension of the final component;
empty when the last dot is at position 0 or at the very end. -/
def pathSuffix (s : String) : String :=
  let n := (pathName s).data
  match lastDotIdx n with
  | some i => if 0 < i ∧ i < n.length - 1 then String.mk (n.drop i) else ""
  | none => ""

/-- Model of `pathlib.Path(s).stem`: final component without its suffix. -/
def pathStem (s : String) : String :=
  let n := (pathName s).data
  match lastDotIdx n with
  | some i => if 0 < i ∧ i < n.length - 1 then String.mk (n.take i) else String.mk n
  | none => String.mk n

/-- Normalised relative path (components joined by single slashes); the key
under which an extracted file lives in the working directory. -/
def normPath (s : String) : String :=
  String.intercalate "/" (pathComps s)

/-- Top-level component of a path that has more than one component: the
directory that `ZipFile.extract` leaves behind in the working directory. -/
def topDirOf (s : String) : Option String :=
  match pathComps s with
  | a :: _ :: _ => some a
  | _ => none

/-! ### core.py: IMAGE_EXTENSIONS and sorted_images -/

/-- The module-level constant `IMAGE_EXTENSIONS` of core.py. -/
def IMAGE_EXTENSIONS : List String := [".jpg", ".jpeg", ".png"]

/-- The filter of `sorted_images`: keep entries whose lower-cased suffix is a
recognized image extension. -/
def isImage (name : String) : Bool :=
  IMAGE_EXTENSIONS.contains (lowerStr (pathSuffix name))

/-- The list comprehension of `sorted_images`. -/
def imageFilter (entries : List String) : List String :=
  entries.filter isImage

/-- The integer value of an entry's stem when it fully parses as a Python int
(the `int(Path(x).stem)` attempt inside `sort_key`). -/
def stemIntOpt (x : String) : Option Int :=
  pyIntOfString (pathStem x)

/-- Boolean form of the key order of `sorted_images.sort_key`: numeric stems
first (ascending by value), then non-numeric names ascending lexically. -/
def sortKeyLeB (a b : String) : Bool :=
  match stemIntOpt a, stemIntOpt b with
  | some m, some n => decide (m ≤ n)
  | some _, none => true
  | none, some _ => false
  | none, none => strLeB a b

/-- The key order of `sorted_images` as a proposition. -/
def imgle (a b : String) : Prop :=
  sortKeyLeB a b = true

instance : DecidableRel imgle :=
  fun a b => instDecidableEqBool (sortKeyLeB a b) true

/-- Model of `core.sorted_images` on an archive's entry name list: filter to
recognized image extensions, fail when empty, else stable-sort by `sort_key`.
Python `sorted` is a stable sort; `List.insertionSort` is the unique stable
sort for the same total preorder. -/
def sorted_images (entries : List String) : Except CbzError (List String) :=
  if (imageFilter entries).isEmpty then
    .error (.CBZProcessingError "No image files found in CBZ")
  else
    .ok ((imageFilter entries).insertionSort imgle)

/-! ### core.py: extract_chapter_number -/

/-- Case-insensitively strip an (already lower-case) literal from the front of
a character list. -/
def stripCiLit : List Char → List Char → Option (List Char)
  | [], cs => some cs
  | _ :: _, [] => none
  | l :: ls, c :: cs => if lowerChar c = l then stripCiLit ls cs else none

/-- Shared tail of every pattern: a greedy nonempty digit run followed exactly
by a case-insensitive `.cbz` at the end of the string. -/
def digitsThenCbz (cs : List Char) : Option Nat :=
  let ds := cs.takeWhile Char.isDigit
  let rest := cs.dropWhile Char.isDigit
  if ds.isEmpty then none
  else
    match stripCiLit ".cbz".data rest with
    | some [] => some (digitsToNat ds)
    | _ => none

/-- Pattern 1 of `extract_chapter_number`, matched at a given suffix:
the regex ` - (\d+)\.cbz$`. -/
def matchP1 : List Char → Option Nat
  | ' ' :: '-' :: ' ' :: rest => digitsThenCbz rest
  | _ => none

/-- Pattern 2: `chapitre (\d+)\.cbz$` (case-insensitive). -/
def matchP2 (cs : List Char) : Option Nat :=
  (stripCiLit "chapitre ".data cs).bind digitsThenCbz

/-- Pattern 3: `chapter (\d+)\.cbz$` (case-insensitive). -/
def matchP3 (cs : List Char) : Option Nat :=
  (stripCiLit "chapter ".data cs).bind digitsThenCbz

/-- Drop a single optional character (`?` in the regex); backtracking cannot
resurrect a skipped optional here because `\d` matches neither `.` nor space. -/
def dropOpt (ch : Char) : List Char → List Char
  | c :: rest => if c = ch then rest else c :: rest
  | [] => []

/-- Pattern 4: `ch\.? ?(\d+)\.cbz$` (case-insensitive). -/
def matchP4 (cs : List Char) : Option Nat :=
  (stripCiLit "ch".data cs).bind fun rest =>
    digitsThenCbz (dropOpt ' ' (dropOpt '.' rest))

/-- Pattern 5: `[- ](\d+)\.cbz$`. -/
def matchP5 : List Char → Option Nat
  | c :: rest => if c = '-' ∨ c = ' ' then digitsThenCbz rest else none
  | [] => none

/-- `re.search` with an end-anchored pattern: try every start position from
the left, first success wins (leftmost match). -/
def searchPat (m : List Char → Option Nat) (s : String) : Option Nat :=
  s.data.tails.findSome? m

/-- The error message raised by `extract_chapter_number`. -/
def chapterErrMsg (filename : String) : String :=
  "Cannot extract chapter number from '" ++ filename ++
    "'. Expected formats: 'Series - 1.cbz', 'Series chapter 1.cbz', etc."

/-- Model of `core.extract_chapter_number`: try the five patterns in order,
case-insensitively, first match wins; raise `ChapterExtractionError` when no
pattern matches. -/
def extract_chapter_number (filename : String) : Except CbzError Nat :=
  match searchPat matchP1 filename with
  | some n => .ok n
  | none =>
  match searchPat matchP2 filename with
  | some n => .ok n
  | none =>
  match searchPat matchP3 filename with
  | some n => .ok n
  | none =>
  match searchPat matchP4 filename with
  | some n => .ok n
  | none =>
  match searchPat matchP5 filename with
  | some n => .ok n
  | none => .error (.ChapterExtractionError (chapterErrMsg filename))

/-! ### core.py: process_cbz_images -/

/-- Provenance of a file in the working directory / an entry of the output
archive: the copied cover, an image extracted from source archive number
`archiveIdx` under its original entry name, or a leftover directory entry. -/
inductive PageSrc where
  | cover : PageSrc
  | img : Nat → String → PageSrc
  | dirEntry : PageSrc
deriving DecidableEq, Repr

/-- A source archive handed to `process_cbz_images`: its path (for messages),
whether the path exists and is a regular file, whether opening it raises
`zipfile.BadZipFile` (carrying the exception text), and its entry names. -/
structure SourceFile where
  path : String
  pathExists : Bool
  isFile : Bool
  zipError : Option String
  entries : List String
deriving DecidableEq, Repr

/-- The optional cover image argument: its path and whether it exists. -/
structure CoverFile where
  path : String
  pathExists : Bool
deriving DecidableEq, Repr

/-- Result of one `process_cbz_images` call: the outcome (error, or the output
archive's entries in written order with their provenance), and whether the
output location was touched (parent `mkdir` / archive write) — the code only
reaches those filesystem effects in the final write block. -/
structure ProcResult where
  result : Except CbzError (List (String × PageSrc))
  outputTouched : Bool
deriving Repr

/-- Working-directory state: extracted/renamed files keyed by normalised
relative path, directories left behind by nested extraction, and the next
sequential page index. -/
structure TmpState where
  fs : List (String × PageSrc)
  dirs : List String
  counter : Nat
deriving Repr

/-- Association-list update with Python `dict`/filesystem overwrite semantics:
replace in place if the key is present, else append. -/
def assocSet {α : Type} (l : List (String × α)) (k : String) (v : α) :
    List (String × α) :=
  match l with
  | [] => [(k, v)]
  | (m, w) :: rest => if m = k then (k, v) :: rest else (m, w) :: assocSet rest k v

/-- Association-list lookup (first occurrence). -/
def assocGet {α : Type} (l : List (String × α)) (k : String) : Option α :=
  match l with
  | [] => none
  | (m, w) :: rest => if m = k then some w else assocGet rest k

/-- Association-list removal. -/
def assocDel {α : Type} (l : List (String × α)) (k : String) :
    List (String × α) :=
  l.filter (fun p => p.1 ≠ k)

/-- Set insertion for the directory list. -/
def dirInsert (dirs : List String) (d : String) : List String :=
  if dirs.contains d then dirs else dirs ++ [d]

/-- Zero-padded decimal rendering, the model of the Python zero-padding
format specifier applied to natural numbers. -/
def padNat (n w : Nat) : String :=
  let s := toString n
  String.mk (List.replicate (w - s.length) '0') ++ s

/-- Zero-padded rendering of an integer (sign first, as Python does). -/
def padInt (n : Int) (w : Nat) : String :=
  if n < 0 then "-" ++ padNat (-n).toNat (w - 1) else padNat n.toNat w

/-- The validation loop of `process_cbz_images`: every source path must exist
and be a regular file; the first offender aborts. -/
def validateFiles : List SourceFile → Except CbzError Unit
  | [] => .ok ()
  | f :: rest =>
    if !f.pathExists then
      .error (.CBZProcessingError ("Input CBZ file not found: " ++ f.path))
    else if !f.isFile then
      .error (.CBZProcessingError ("Input path is not a file: " ++ f.path))
    else validateFiles rest

/-- The cover validation of `process_cbz_images` (`cover_path` truthy but
nonexistent fails). -/
def checkCover : Option CoverFile → Except CbzError Unit
  | none => .ok ()
  | some c =>
    if !c.pathExists then
      .error (.CBZProcessingError ("Cover image not found: " ++ c.path))
    else .ok ()

/-- Opening a source archive with `zipfile.ZipFile`: a corrupt file raises
`BadZipFile`, mapped in the counting loop to a `CBZProcessingError`. -/
def openZip (f : SourceFile) : Except CbzError (List String) :=
  match f.zipError with
  | some e =>
    .error (.CBZProcessingError ("Invalid or corrupted CBZ file: " ++ f.path ++ " - " ++ e))
  | none => .ok f.entries

/-- The counting loop of `process_cbz_images`: sum of `len(sorted_images(z))`
over all source archives, aborting on the first open or per-archive failure. -/
def countImagesE : List SourceFile → Except CbzError Nat
  | [] => .ok 0
  | f :: rest =>
    match openZip f with
    | .error e => .error e
    | .ok entries =>
      match sorted_images entries with
      | .error e => .error e
      | .ok imgs =>
        match countImagesE rest with
        | .error e => .error e
        | .ok n => .ok (imgs.length + n)

/-- Total image count over the sources (ignoring failures): the quantity the
zero-image guard is about. -/
def countImagesTotal (files : List SourceFile) : Nat :=
  (files.map (fun f => (imageFilter f.entries).length)).sum

/-- Cover copy step: `shutil.copy2` of the cover to index `0` zero-padded,
keeping its lower-cased extension; an `IOError` (modelled by the `coverOk`
oracle) becomes a `CBZProcessingError`. -/
def coverStep (coverOk : Bool) (cover : Option CoverFile) (padding : Nat)
    (st : TmpState) : Except CbzError TmpState :=
  match cover with
  | none => .ok st
  | some c =>
    if c.pathExists then
      if !coverOk then
        .error (.CBZProcessingError "Failed to copy cover image: ")
      else
        .ok { st with
              fs := assocSet st.fs (padNat 0 padding ++ lowerStr (pathSuffix c.path)) .cover }
    else .ok st

/-- One image step of the extraction loop: `z.extract` writes (overwriting)
the file at its entry path inside the working directory, leaving behind any
top-level directory of a nested entry, then `Path.rename` moves it
(overwriting, POSIX) onto the next zero-padded sequential name with the
lower-cased original extension.  `extractOk i j` models the `except Exception`
around the step for image `j` of archive `i`. -/
def extractImage (extractOk : Nat → Nat → Bool) (i j : Nat)
    (archName : String) (padding : Nat) (imgName : String) (st : TmpState) :
    Except CbzError TmpState :=
  if !extractOk i j then
    .error (.CBZProcessingError
      ("Failed to extract image " ++ imgName ++ " from " ++ archName ++ ": "))
  else
    let p := normPath imgName
    let fs1 := assocSet st.fs p (.img i imgName)
    let dirs1 := match topDirOf imgName with
      | some d => dirInsert st.dirs d
      | none => st.dirs
    let ext := lowerStr (pathSuffix imgName)
    let newName := padNat st.counter padding ++ ext
    let v := (assocGet fs1 p).getD (.img i imgName)
    let fs2 := assocSet (assocDel fs1 p) newName v
    .ok { fs := fs2, dirs := dirs1, counter := st.counter + 1 }

/-- The inner extraction loop over one archive's sorted images. -/
def extractArchive (extractOk : Nat → Nat → Bool) (i : Nat) (archName : String)
    (padding : Nat) : List String → Nat → TmpState → Except CbzError TmpState
  | [], _, st => .ok st
  | img :: rest, j, st =>
    match extractImage extractOk i j archName padding img st with
    | .error e => .error e
    | .ok st1 => extractArchive extractOk i archName padding rest (j + 1) st1

/-- The outer extraction loop over all source archives, in input order. -/
def extractAll (extractOk : Nat → Nat → Bool) (padding : Nat) :
    List SourceFile → Nat → TmpState → Except CbzError TmpState
  | [], _, st => .ok st
  | f :: rest, i, st =>
    match sorted_images f.entries with
    | .error e => .error e
    | .ok imgs =>
      match extractArchive extractOk i (pathName f.path) padding imgs 0 st with
      | .error e => .error e
      | .ok st1 => extractAll extractOk padding rest (i + 1) st1

/-- The name order used for `sorted(tmp_path.glob("*"))`. -/
def nameLe (a b : String) : Prop :=
  strLeB a b = true

instance : DecidableRel nameLe :=
  fun a b => instDecidableEqBool (strLeB a b) true

/-- Everything `process_cbz_images` does before the output write: validate
inputs, count images to fix the zero-padding width, copy the cover to slot 0,
extract and sequentially rename every image, list and sort the working
directory, and check it nonempty.  Any failure raises here, before the code
ever touches the output path.  `extractOk`/`coverOk` are oracles for the I/O
failures the code catches per step. -/
def processPrepare (extractOk : Nat → Nat → Bool) (coverOk : Bool)
    (files : List SourceFile) (cover : Option CoverFile) :
    Except CbzError (List (String × PageSrc)) :=
  match validateFiles files with
  | .error e => .error e
  | .ok _ =>
  match checkCover cover with
  | .error e => .error e
  | .ok _ =>
  match countImagesE files with
  | .error e => .error e
  | .ok count =>
  if count + (match cover with | some _ => 1 | none => 0) = 0 then
    .error (.CBZProcessingError "No images found in any CBZ files")
  else
  match coverStep coverOk cover
      (max 3 (toString (count + (match cover with | some _ => 1 | none => 0))).length)
      ⟨[], [], 1⟩ with
  | .error e => .error e
  | .ok st1 =>
  match extractAll extractOk
      (max 3 (toString (count + (match cover with | some _ => 1 | none => 0))).length)
      files 0 st1 with
  | .error e => .error e
  | .ok st2 =>
  if ((st2.fs.map Prod.fst ++ st2.dirs).insertionSort nameLe).isEmpty then
    .error (.CBZProcessingError "No images to write to output CBZ")
  else
    .ok (((st2.fs.map Prod.fst ++ st2.dirs).insertionSort nameLe).map fun nm =>
        match assocGet st2.fs nm with
        | some v => (nm, v)
        | none => (nm ++ "/", .dirEntry))

/-- Model of `core.process_cbz_images`: run the pre-write pipeline; only when
it succeeds does control reach the write block, which creates the output's
parent directory and writes the sorted entries (`outputTouched`). -/
def process_cbz_images (extractOk : Nat → Nat → Bool) (coverOk : Bool)
    (files : List SourceFile) (cover : Option CoverFile) : ProcResult :=
  match processPrepare extractOk coverOk files cover with
  | .error e => ⟨.error e, false⟩
  | .ok entriesOut => ⟨.ok entriesOut, true⟩

/-- The all-I/O-succeeds oracle: extraction and cover copy never raise. -/
def allOk : Nat → Nat → Bool := fun _ _ => true

/-! ### modes.py: regroup_cbz -/

/-- JSON values as `json.load` produces them (numbers restricted to integers;
the configuration format uses only integral numbers). -/
inductive JValue where
  | str : String → JValue
  | num : Int → JValue
  | bool : Bool → JValue
  | null : JValue
  | arr : List JValue → JValue
  | obj : List (String × JValue) → JValue

/-- Python truthiness of a JSON value. -/
def jTruthy : JValue → Bool
  | .str s => s ≠ ""
  | .num n => n ≠ 0
  | .bool b => b
  | .null => false
  | .arr xs => !xs.isEmpty
  | .obj fs => !fs.isEmpty

/-- Model of CPython `int(x)` on a JSON value: `ValueError`/`TypeError`
messages become `Except.error` payloads (`Bool` is an `int` subclass in
Python, so booleans convert). -/
def pyIntOfJValue : JValue → Except String Int
  | .num n => .ok n
  | .bool b => .ok (if b then 1 else 0)
  | .str s =>
    match pyIntOfString s with
    | some n => .ok n
    | none => .error ("invalid literal for int() with base 10: '" ++ s ++ "'")
  | .null => .error "int() argument must be a string, a bytes-like object or a real number, not 'NoneType'"
  | .arr _ => .error "int() argument must be a string, a bytes-like object or a real number, not 'list'"
  | .obj _ => .error "int() argument must be a string, a bytes-like object or a real number, not 'dict'"

/-- A `*.cbz` file discovered in the input directory (it exists and is a
regular file by construction): its filename, whether opening it raises
`BadZipFile`, and its entry names. -/
structure CbzEntry where
  name : String
  zipError : Option String
  entries : List String
deriving DecidableEq, Repr

/-- Warnings printed by `regroup_cbz` (stderr diagnostics; processing
continues): a tome's cover file is missing, or chapters of a tome's range are
absent from the input directory. -/
inductive Warning where
  | missingCover : Int → String → Warning
  | missingChapters : Int → List Int → Warning
deriving DecidableEq, Repr

/-- Result of one `regroup_cbz` call: outcome, warnings in emission order, and
the tomes successfully written before any abort (output name plus the entries
of the written archive). -/
structure RegroupResult where
  result : Except CbzError Unit
  warnings : List Warning
  tomesWritten : List (String × List (String × PageSrc))
deriving Repr

/-- Integer-keyed association-list lookup. -/
def assocGetI {α : Type} (l : List (Int × α)) (k : Int) : Option α :=
  match l with
  | [] => none
  | (m, w) :: rest => if m = k then some w else assocGetI rest k

/-- Integer-keyed association-list update (Python `dict` semantics). -/
def assocSetI {α : Type} (l : List (Int × α)) (k : Int) (v : α) :
    List (Int × α) :=
  match l with
  | [] => [(k, v)]
  | (m, w) :: rest => if m = k then (k, v) :: rest else (m, w) :: assocSetI rest k v

/-- The chapter-scanning loop of `regroup_cbz`, one file at a time: build the
chapter-number → archive mapping (`dict` update semantics, last duplicate
wins) and accumulate every `ChapterExtractionError` as `(filename, str(e))`. -/
def scanChaptersGo (acc : List (Int × CbzEntry) × List (String × String)) :
    List CbzEntry → List (Int × CbzEntry) × List (String × String)
  | [] => acc
  | f :: rest =>
    match extract_chapter_number f.name with
    | .ok n => scanChaptersGo (assocSetI acc.1 (n : Int) f, acc.2) rest
    | .error (.ChapterExtractionError m) =>
      scanChaptersGo (acc.1, acc.2 ++ [(f.name, m)]) rest
    | .error _ => scanChaptersGo acc rest

/-- The chapter-scanning loop of `regroup_cbz` over all discovered files. -/
def scanChapters (files : List CbzEntry) :
    List (Int × CbzEntry) × List (String × String) :=
  scanChaptersGo ([], []) files

/-- Concatenation of a list of strings, in order (the `+=` accumulation loop
building the failure message). -/
def strConcat : List String → String
  | [] => ""
  | s :: rest => s ++ strConcat rest

/-- The accumulated failure message raised when any filename fails chapter
extraction. -/
def extractFailMsg (failures : List (String × String)) : String :=
  "Failed to extract chapter numbers from the following files:\n" ++
    strConcat (failures.map (fun p => "  - " ++ p.1 ++ ": " ++ p.2 ++ "\n"))

/-- The message of the `except KeyError` branch (missing `tomes` key). -/
def missingTomesMsg : String :=
  "Invalid JSON structure. Missing 'tomes' key. Expected structure: \x7b'tomes': \x7b'1': \x7b'chapters': [1, 5], 'cover': 'path.jpg'\x7d, ...\x7d\x7d"

/-- Diagnostic for a tome entry missing its `chapters` key. -/
def missingChaptersMsg (n : Int) : String :=
  "Tome " ++ toString n ++ ": missing 'chapters' key. Expected format: \x7b\"chapters\": [start, end]\x7d"

/-- Diagnostic for a `chapters` value that is not a 2-element list. -/
def badChaptersShapeMsg (n : Int) : String :=
  "Tome " ++ toString n ++ ": 'chapters' must be a list/tuple with 2 elements [start, end]"

/-- Diagnostic wrapping a `ValueError`/`TypeError` from tome-number or bound
conversion. -/
def badTomeNumMsg (e : String) : String :=
  "Invalid tome number or chapter range: " ++ e

/-- Membership test `"chapters" in tome_data` (Python `in`): key lookup on a
dict, element test on a list, substring test on a string; `TypeError` text on
non-containers. -/
def jContains (v : JValue) (key : String) : Except String Bool :=
  match v with
  | .obj fields => .ok (fields.any (fun p => p.1 = key))
  | .arr xs => .ok (xs.any (fun x => match x with | .str s => s = key | _ => false))
  | .str s => .ok (strContainsB s key)
  | _ => .error "argument of type 'int' is not iterable"

/-- Indexing `tome_data["chapters"]` after a successful membership test:
defined on dicts; lists and strings raise `TypeError` on a string index. -/
def jIndex (v : JValue) (key : String) : Except String JValue :=
  match v with
  | .obj fields =>
    match assocGet fields key with
    | some w => .ok w
    | none => .error key
  | .arr _ => .error "list indices must be integers or slices, not str"
  | .str _ => .error "string indices must be integers, not 'str'"
  | _ => .error "object is not subscriptable"

/-- The body of the per-tome parsing loop of `regroup_cbz` (one iteration of
`for tome_key, tome_data in infos["tomes"].items()` with its inner
`try`/`except (ValueError, TypeError)`): yields the tome number and its
inclusive chapter range, or the `InvalidJSONError` the iteration raises. -/
def parseTomeEntry (k : String) (d : JValue) : Except CbzError (Int × Int × Int) :=
  match pyIntOfString k with
  | none =>
    .error (.InvalidJSONError (badTomeNumMsg ("invalid literal for int() with base 10: '" ++ k ++ "'")))
  | some n =>
    match jContains d "chapters" with
    | .error t => .error (.InvalidJSONError (badTomeNumMsg t))
    | .ok false => .error (.InvalidJSONError (missingChaptersMsg n))
    | .ok true =>
      match jIndex d "chapters" with
      | .error t => .error (.InvalidJSONError (badTomeNumMsg t))
      | .ok (.arr [a, b]) =>
        match pyIntOfJValue a with
        | .error t => .error (.InvalidJSONError (badTomeNumMsg t))
        | .ok s =>
          match pyIntOfJValue b with
          | .error t => .error (.InvalidJSONError (badTomeNumMsg t))
          | .ok e => .ok (n, s, e)
      | .ok _ => .error (.InvalidJSONError (badChaptersShapeMsg n))

/-- The parsing loop over all tome entries, aborting at the first failing
iteration (the code raises inside the loop; nothing is accumulated). -/
def parseTomesFields (acc : List (Int × Int × Int)) :
    List (String × JValue) → Except CbzError (List (Int × Int × Int))
  | [] => .ok acc
  | (k, d) :: rest =>
    match parseTomeEntry k d with
    | .error e => .error e
    | .ok (n, s, e) => parseTomesFields (assocSetI acc n (s, e)) rest

/-- Fetching `infos["tomes"].items()`: a missing key raises `KeyError`
(converted to `InvalidJSONError`); a present non-dict value fails later with
an `AttributeError` on `.items()`, reported by the outer catch-all as a
generic `CBZProcessingError`. -/
def getTomesFields (infos : JValue) : Except CbzError (List (String × JValue)) :=
  match jContains infos "tomes" with
  | .error t =>
    .error (.CBZProcessingError ("Unexpected error during regrouping: " ++ t))
  | .ok false => .error (.InvalidJSONError missingTomesMsg)
  | .ok true =>
    match jIndex infos "tomes" with
    | .ok (.obj fields) => .ok fields
    | _ =>
      .error (.CBZProcessingError "Unexpected error during regrouping: 'items'")

/-- The cover-collection loop of `regroup_cbz`: for each tome entry, a truthy
`cover` field that is a string path is kept when the file exists, else a
warning is emitted; a truthy non-string cover makes `Path(...)` raise, caught
by the outer catch-all. -/
def scanCovers (fields : List (String × JValue)) (coverExists : String → Bool) :
    Except CbzError (List (Int × String) × List Warning) :=
  fields.foldlM
    (fun acc p =>
      let n := (pyIntOfString p.1).getD 0
      match jContains p.2 "cover" with
      | .error t =>
        .error (.CBZProcessingError ("Unexpected error during regrouping: " ++ t))
      | .ok false => .ok acc
      | .ok true =>
        match jIndex p.2 "cover" with
        | .error t =>
          .error (.CBZProcessingError ("Unexpected error during regrouping: " ++ t))
        | .ok v =>
          if !jTruthy v then .ok acc
          else
            match v with
            | .str s =>
              if coverExists s then .ok (assocSetI acc.1 n s, acc.2)
              else .ok (acc.1, acc.2 ++ [.missingCover n s])
            | _ =>
              .error (.CBZProcessingError "Unexpected error during regrouping: argument should be a str"))
    ([], [])

/-- `range(start, end + 1)` as a list of integers. -/
def intRange (s e : Int) : List Int :=
  (List.range (e + 1 - s).toNat).map (fun i => s + (i : Int))

/-- One step at a time, the per-tome chapter collection loop: walk the range
in ascending order, collecting the archives present in the chapter index and
recording the missing chapter numbers. -/
def collectTomeGo (chapters : List (Int × CbzEntry)) :
    List Int → List CbzEntry × List Int → List CbzEntry × List Int
  | [], acc => acc
  | c :: cs, acc =>
    match assocGetI chapters c with
    | some x => collectTomeGo chapters cs (acc.1 ++ [x], acc.2)
    | none => collectTomeGo chapters cs (acc.1, acc.2 ++ [c])

/-- The per-tome chapter collection loop over the tome's inclusive range. -/
def collectTome (chapters : List (Int × CbzEntry)) (s e : Int) :
    List CbzEntry × List Int :=
  collectTomeGo chapters (intRange s e) ([], [])

/-- A discovered chapter archive viewed as a `process_cbz_images` source (it
came from `glob`, so it exists and is a regular file). -/
def toSourceFile (c : CbzEntry) : SourceFile :=
  ⟨c.name, true, true, c.zipError, c.entries⟩

/-- The maximum tome number (`max(tomes.keys())`, defined when nonempty). -/
def maxKeyI (l : List (Int × Int × Int)) : Int :=
  match l with
  | [] => 0
  | (k, _) :: rest => rest.foldl (fun m p => max m p.1) k

/-- The per-tome processing loop: collect the tome's chapters, warn about the
missing ones, build the output name, and call `process_cbz_images`; a
processing failure aborts the remaining tomes. -/
def processTomes (chapters : List (Int × CbzEntry)) (covers : List (Int × String))
    (series pfx : String) (pad : Nat) :
    List (Int × Int × Int) → List Warning →
    List (String × List (String × PageSrc)) → RegroupResult
  | [], ws, outs => ⟨.ok (), ws, outs⟩
  | (n, s, e) :: rest, ws, outs =>
    let col := collectTome chapters s e
    let ws1 := if col.2.isEmpty then ws else ws ++ [.missingChapters n col.2]
    let outName := series ++ " - Tome " ++ padInt n pad ++ pfx ++ ".cbz"
    let cov := (assocGetI covers n).map (fun p => CoverFile.mk p true)
    match (process_cbz_images allOk true (col.1.map toSourceFile) cov).result with
    | .error er => ⟨.error er, ws1, outs⟩
    | .ok entriesOut => processTomes chapters covers series pfx pad rest ws1 (outs ++ [(outName, entriesOut)])

/-- Model of `modes.regroup_cbz`: reject file inputs, require at least one
discovered `*.cbz`, extract every chapter number (accumulating all failures),
parse the tome configuration (failing on the first malformed entry), collect
covers, then process each tome in configuration order.  The creation of the
output directory itself is not modelled; `tomesWritten` records every archive
written. -/
def regroup_cbz (dirIsFile : Bool) (inputPath : String) (files : List CbzEntry)
    (infos : JValue) (series pfx : String) (coverExists : String → Bool) :
    RegroupResult :=
  if dirIsFile then
    ⟨.error (.CBZProcessingError
      "Regroup mode (--series) only works with directories, not single files."), [], []⟩
  else if files.isEmpty then
    ⟨.error (.CBZProcessingError ("No CBZ files found in directory: " ++ inputPath)), [], []⟩
  else
    let sc := scanChapters files
    if !sc.2.isEmpty then
      ⟨.error (.InvalidJSONError (extractFailMsg sc.2)), [], []⟩
    else
      match getTomesFields infos with
      | .error e => ⟨.error e, [], []⟩
      | .ok fields =>
        match parseTomesFields [] fields with
        | .error e => ⟨.error e, [], []⟩
        | .ok tomes =>
          if tomes.isEmpty then
            ⟨.error (.InvalidJSONError "No tomes found in JSON configuration"), [], []⟩
          else
            match scanCovers fields coverExists with
            | .error e => ⟨.error e, [], []⟩
            | .ok (covers, coverWarns) =>
              let pad := (toString (maxKeyI tomes)).length
              processTomes sc.1 covers series pfx pad tomes coverWarns []

/-! ### Order facts about the modelled comparisons -/

theorem char_eq_of_toNat_eq {a b : Char} (h : a.toNat = b.toNat) : a = b := by
  cases a; cases b
  simp only [Char.toNat] at h
  congr 1
  exact UInt32.toNat.inj h

theorem charListLt_cons_iff {a b : Char} {as bs : List Char} :
    charListLt (a :: as) (b :: bs) = true ↔
      a.toNat < b.toNat ∨ (a.toNat = b.toNat ∧ charListLt as bs = true) := by
  simp only [charListLt]
  split_ifs with h1 h2
  · simp [h1]
  · constructor
    · intro h; exact absurd h (by simp)
    · rintro (h | ⟨h, _⟩) <;> omega
  · have heq : a.toNat = b.toNat := by omega
    simp [heq, h1]

theorem charListLt_nil_right (as : List Char) : charListLt as [] = false := by
  cases as <;> rfl

theorem charListLt_asymm :
    ∀ as bs, charListLt as bs = true → charListLt bs as = true → False
  | [], [], h, _ => by simp [charListLt] at h
  | [], _ :: _, _, h2 => by rw [charListLt_nil_right] at h2; exact absurd h2 (by simp)
  | _ :: _, [], h1, _ => by rw [charListLt_nil_right] at h1; exact absurd h1 (by simp)
  | a :: as, b :: bs, h1, h2 => by
    rw [charListLt_cons_iff] at h1 h2
    rcases h1 with h1 | ⟨e1, l1⟩ <;> rcases h2 with h2 | ⟨e2, l2⟩
    · omega
    · omega
    · omega
    · exact charListLt_asymm as bs l1 l2

theorem charListLt_trans :
    ∀ as bs cs, charListLt as bs = true → charListLt bs cs = true →
      charListLt as cs = true
  | _, [], _, h1, _ => by rw [charListLt_nil_right] at h1; exact absurd h1 (by simp)
  | _, _ :: _, [], _, h2 => by rw [charListLt_nil_right] at h2; exact absurd h2 (by simp)
  | [], _ :: _, _ :: _, _, _ => by simp [charListLt]
  | a :: as, b :: bs, c :: cs, h1, h2 => by
    rw [charListLt_cons_iff] at h1 h2 ⊢
    rcases h1 with h1 | ⟨e1, l1⟩ <;> rcases h2 with h2 | ⟨e2, l2⟩
    · exact Or.inl (by omega)
    · exact Or.inl (by omega)
    · exact Or.inl (by omega)
    · exact Or.inr ⟨by omega, charListLt_trans as bs cs l1 l2⟩

theorem charListLt_connex :
    ∀ as bs, charListLt as bs = false → charListLt bs as = false → as = bs
  | [], [], _, _ => rfl
  | [], _ :: _, h1, _ => by simp [charListLt] at h1
  | _ :: _, [], _, h2 => by simp [charListLt] at h2
  | a :: as, b :: bs, h1, h2 => by
    have n1 : ¬charListLt (a :: as) (b :: bs) = true := by simp [h1]
    have n2 : ¬charListLt (b :: bs) (a :: as) = true := by simp [h2]
    rw [charListLt_cons_iff] at n1 n2
    push_neg at n1 n2
    have heq : a.toNat = b.toNat := by omega
    have h1' : charListLt as bs = false := by
      have := n1.2 heq
      simpa using this
    have h2' : charListLt bs as = false := by
      have := n2.2 heq.symm
      simpa using this
    rw [char_eq_of_toNat_eq heq, charListLt_connex as bs h1' h2']

theorem string_data_inj {a b : String} (h : a.data = b.data) : a = b := by
  cases a; cases b; congr 1

theorem strLeB_total (a b : String) : strLeB a b = true ∨ strLeB b a = true := by
  by_cases h : charListLt b.data a.data = true
  · right
    simp only [strLeB]
    cases hc : charListLt a.data b.data
    · rfl
    · exact absurd (charListLt_asymm _ _ hc h) (fun f => f)
  · left
    simp only [strLeB]
    simp only [Bool.not_eq_true] at h
    simp [h]

theorem strLeB_trans {a b c : String} (h1 : strLeB a b = true)
    (h2 : strLeB b c = true) : strLeB a c = true := by
  simp only [strLeB, Bool.not_eq_true'] at h1 h2 ⊢
  by_contra hne
  simp only [Bool.not_eq_false] at hne
  cases hab : charListLt a.data b.data
  · have : a = b := string_data_inj (charListLt_connex _ _ hab h1)
    subst this
    rw [h2] at hne
    exact absurd hne (by simp)
  · have : charListLt c.data b.data = true := charListLt_trans _ _ _ hne hab
    rw [this] at h2
    exact absurd h2 (by simp)

theorem imgle_total : ∀ a b : String, imgle a b ∨ imgle b a := by
  intro a b
  simp only [imgle, sortKeyLeB]
  cases ha : stemIntOpt a <;> cases hb : stemIntOpt b
  · exact (strLeB_total a b).imp (fun h => h) (fun h => h)
  · simp
  · simp
  · rename_i m n
    rcases Int.le_total m n with h | h
    · left; simpa using h
    · right; simpa using h

theorem imgle_trans : ∀ a b c : String, imgle a b → imgle b c → imgle a c := by
  intro a b c h1 h2
  simp only [imgle, sortKeyLeB] at h1 h2 ⊢
  cases ha : stemIntOpt a <;> cases hb : stemIntOpt b <;>
    cases hc : stemIntOpt c <;> rw [ha, hb] at h1 <;> rw [hb, hc] at h2 <;>
    try simp_all
  · exact strLeB_trans h1 h2
  · omega

instance : IsTotal String imgle := ⟨imgle_total⟩

instance : IsTrans String imgle := ⟨fun a b c => imgle_trans a b c⟩

/-- A pairwise-ordered list whose order never lets a `p`-element follow a
non-`p`-element decomposes as its `p`-part followed by its non-`p`-part. -/
theorem pairwise_filter_decomp {α : Type} (p : α → Bool) (R : α → α → Prop)
    (hmono : ∀ a b, R a b → p a = false → p b = false) :
    ∀ l : List α, l.Pairwise R → l = l.filter p ++ l.filter (fun x => !p x)
  | [], _ => rfl
  | x :: xs, hp => by
    rcases List.pairwise_cons.mp hp with ⟨hx, hxs⟩
    by_cases hpx : p x = true
    · have ih := pairwise_filter_decomp p R hmono xs hxs
      simp only [List.filter_cons, hpx]
      simpa using ih
    · have hpx' : p x = false := by simpa using hpx
      have hall : ∀ y ∈ xs, p y = false := fun y hy => hmono x y (hx y hy) hpx'
      have hfp : (x :: xs).filter p = [] :=
        List.filter_eq_nil_iff.mpr (by
          intro a ha
          rcases List.mem_cons.mp ha with rfl | ha
          · simp [hpx']
          · simp [hall a ha])
      have hfq : (x :: xs).filter (fun x => !p x) = x :: xs :=
        List.filter_eq_self.mpr (by
          intro a ha
          rcases List.mem_cons.mp ha with rfl | ha
          · simp [hpx']
          · simp [hall a ha])
      rw [hfp, hfq]
      rfl

end CbzConvertor

deriving instance DecidableEq for Except

namespace CbzConvertor

/-! ## The claims -/

/-- C2: for every filename, `extract_chapter_number` tries the five patterns
in order, case-insensitively; the digit group of the first matching pattern is
returned as an integer (an earlier pattern's result wins even when a later
pattern would also match), and `ChapterExtractionError` is raised if and only
if no pattern matches; "My Series - 19.cbz" yields 19 and "random.cbz"
fails. -/
theorem extract_chapter_number_spec :
    (∀ f n, searchPat matchP1 f = some n → extract_chapter_number f = .ok n)
  ∧ (∀ f n, searchPat matchP1 f = none → searchPat matchP2 f = some n →
      extract_chapter_number f = .ok n)
  ∧ (∀ f n, searchPat matchP1 f = none → searchPat matchP2 f = none →
      searchPat matchP3 f = some n → extract_chapter_number f = .ok n)
  ∧ (∀ f n, searchPat matchP1 f = none → searchPat matchP2 f = none →
      searchPat matchP3 f = none → searchPat matchP4 f = some n →
      extract_chapter_number f = .ok n)
  ∧ (∀ f n, searchPat matchP1 f = none → searchPat matchP2 f = none →
      searchPat matchP3 f = none → searchPat matchP4 f = none →
      searchPat matchP5 f = some n → extract_chapter_number f = .ok n)
  ∧ (∀ f, extract_chapter_number f =
        .error (.ChapterExtractionError (chapterErrMsg f)) ↔
      (searchPat matchP1 f = none ∧ searchPat matchP2 f = none ∧
       searchPat matchP3 f = none ∧ searchPat matchP4 f = none ∧
       searchPat matchP5 f = none))
  ∧ extract_chapter_number "My Series - 19.cbz" = .ok 19
  ∧ extract_chapter_number "random.cbz" =
      .error (.ChapterExtractionError (chapterErrMsg "random.cbz")) := by
  refine ⟨?_, ?_, ?_, ?_, ?_, ?_, by decide, by decide⟩
  · intro f n h1
    unfold extract_chapter_number
    rw [h1]
  · intro f n h1 h2
    unfold extract_chapter_number
    rw [h1, h2]
  · intro f n h1 h2 h3
    unfold extract_chapter_number
    rw [h1, h2, h3]
  · intro f n h1 h2 h3 h4
    unfold extract_chapter_number
    rw [h1, h2, h3, h4]
  · intro f n h1 h2 h3 h4 h5
    unfold extract_chapter_number
    rw [h1, h2, h3, h4, h5]
  · intro f
    constructor
    · intro h
      unfold extract_chapter_number at h
      cases h1 : searchPat matchP1 f <;> rw [h1] at h
      case some => exact absurd h (by simp)
      cases h2 : searchPat matchP2 f <;> rw [h2] at h
      case some => exact absurd h (by simp)
      cases h3 : searchPat matchP3 f <;> rw [h3] at h
      case some => exact absurd h (by simp)
      cases h4 : searchPat matchP4 f <;> rw [h4] at h
      case some => exact absurd h (by simp)
      cases h5 : searchPat matchP5 f <;> rw [h5] at h
      case some => exact absurd h (by simp)
      exact ⟨rfl, rfl, rfl, rfl, rfl⟩
    · rintro ⟨h1, h2, h3, h4, h5⟩
      unfold extract_chapter_number
      rw [h1, h2, h3, h4, h5]

/-- C2 witness: the second pattern applies to "My Series chapitre 1.cbz"
(pattern 1 does not match it) and yields 1. -/
theorem extract_chapter_number_spec_witness :
    extract_chapter_number "My Series chapitre 1.cbz" = .ok 1 :=
  extract_chapter_number_spec.2.1 "My Series chapitre 1.cbz" 1
    (by decide) (by decide)

/-- C3: `sorted_images` keeps exactly the entries with a recognized image
extension, orders numeric-stemmed entries first in ascending numeric order
followed by the remaining entries in ascending lexical order of full name,
fails with a `ProcessingError` exactly when the filtered list is empty, and
on ["10.png","2.jpg","cover.png","1.jpg"] yields
["1.jpg","2.jpg","10.png","cover.png"]. -/
theorem sorted_images_spec :
    (∀ entries, sorted_images entries =
        .error (.CBZProcessingError "No image files found in CBZ") ↔
        imageFilter entries = [])
  ∧ (∀ entries l, sorted_images entries = .ok l →
      l.Perm (imageFilter entries)
      ∧ l.Pairwise imgle
      ∧ l = l.filter (fun x => (stemIntOpt x).isSome)
            ++ l.filter (fun x => !(stemIntOpt x).isSome)
      ∧ (l.filter (fun x => (stemIntOpt x).isSome)).Pairwise
          (fun a b => ∀ m n, stemIntOpt a = some m → stemIntOpt b = some n → m ≤ n)
      ∧ (l.filter (fun x => !(stemIntOpt x).isSome)).Pairwise
          (fun a b => stemIntOpt a = none → stemIntOpt b = none → strLeB a b = true))
  ∧ sorted_images ["10.png", "2.jpg", "cover.png", "1.jpg"] =
      .ok ["1.jpg", "2.jpg", "10.png", "cover.png"] := by
  refine ⟨?_, ?_, by decide⟩
  · intro entries
    unfold sorted_images
    by_cases he : imageFilter entries = []
    · simp [he]
    · have hne : (imageFilter entries).isEmpty = false := by
        cases hh : imageFilter entries
        · exact absurd hh he
        · rfl
      simp [hne, he]
  · intro entries l h
    unfold sorted_images at h
    by_cases he : imageFilter entries = []
    · rw [he] at h
      exact absurd h (by simp)
    · have hne : (imageFilter entries).isEmpty = false := by
        cases hh : imageFilter entries
        · exact absurd hh he
        · rfl
      rw [hne] at h
      simp only [Bool.false_eq_true, if_false, Except.ok.injEq] at h
      subst h
      have hperm := List.perm_insertionSort imgle (imageFilter entries)
      have hsort : ((imageFilter entries).insertionSort imgle).Pairwise imgle :=
        List.sorted_insertionSort imgle (imageFilter entries)
      refine ⟨hperm, hsort, ?_, ?_, ?_⟩
      · refine pairwise_filter_decomp _ imgle ?_ _ hsort
        intro a b hab hpa
        simp only [imgle, sortKeyLeB] at hab
        cases ha : stemIntOpt a
        · cases hb : stemIntOpt b
          · simp [hb]
          · simp [ha, hb] at hab
        · rw [ha] at hpa
          exact absurd hpa (by simp)
      · refine (List.Pairwise.sublist (List.filter_sublist _) hsort).imp ?_
        intro a b hab m n hm hn
        simp only [imgle, sortKeyLeB, hm, hn] at hab
        exact of_decide_eq_true hab
      · refine (List.Pairwise.sublist (List.filter_sublist _) hsort).imp ?_
        intro a b hab hm hn
        simpa only [imgle, sortKeyLeB, hm, hn] using hab

/-- C3 witness: on the archive ["3.png", "x.jpg", "1.jpg"] the sorted result
["1.jpg", "3.png", "x.jpg"] is a permutation of the filter, pairwise ordered,
and decomposes into its numeric and lexical parts. -/
theorem sorted_images_spec_witness :
    List.Perm ["1.jpg", "3.png", "x.jpg"] (imageFilter ["3.png", "x.jpg", "1.jpg"])
    ∧ List.Pairwise imgle ["1.jpg", "3.png", "x.jpg"]
    ∧ ["1.jpg", "3.png", "x.jpg"] =
        List.filter (fun x => (stemIntOpt x).isSome) ["1.jpg", "3.png", "x.jpg"]
          ++ List.filter (fun x => !(stemIntOpt x).isSome) ["1.jpg", "3.png", "x.jpg"]
    ∧ (List.filter (fun x => (stemIntOpt x).isSome) ["1.jpg", "3.png", "x.jpg"]).Pairwise
        (fun a b => ∀ m n, stemIntOpt a = some m → stemIntOpt b = some n → m ≤ n)
    ∧ (List.filter (fun x => !(stemIntOpt x).isSome) ["1.jpg", "3.png", "x.jpg"]).Pairwise
        (fun a b => stemIntOpt a = none → stemIntOpt b = none → strLeB a b = true) :=
  sorted_images_spec.2.1 ["3.png", "x.jpg", "1.jpg"] ["1.jpg", "3.png", "x.jpg"]
    (by decide)

/-- C1 (refuted, code bug): repackaging is claimed to always produce exactly M
entries named 1..M; but extraction happens into the same working directory
that holds the already-renamed pages, and both `ZipFile.extract` and
`Path.rename` overwrite silently.  A single readable archive with the two
recognized images `000.jpg`, `001.jpg` (M = 2) yields an output with a single
entry, named `002.jpg` and holding source image `001.jpg`: the page extracted
from `000.jpg` was overwritten and lost. -/
theorem process_loses_page_on_name_collision :
    countImagesTotal [⟨"a.cbz", true, true, none, ["000.jpg", "001.jpg"]⟩] = 2
    ∧ (process_cbz_images allOk true
        [⟨"a.cbz", true, true, none, ["000.jpg", "001.jpg"]⟩] none).result =
      .ok [("002.jpg", .img 0 "001.jpg")] :=
  ⟨by decide, by decide⟩

/-- C4 (refuted, code bug): with a cover supplied, the output is claimed to
hold M+1 entries whose lexically-first entry is the cover at index 0; but a
source image named `000.jpg` is extracted onto the cover's working file
`000.jpg` and overwrites it.  With one source image (M = 1) and an existing
cover `c.jpg`, the output holds a single entry `001.jpg` sourced from the
image — the cover is gone and no entry of index 0 exists. -/
theorem process_cover_overwritten_by_image :
    countImagesTotal [⟨"a.cbz", true, true, none, ["000.jpg"]⟩] = 1
    ∧ (process_cbz_images allOk true [⟨"a.cbz", true, true, none, ["000.jpg"]⟩]
        (some ⟨"c.jpg", true⟩)).result = .ok [("001.jpg", .img 0 "000.jpg")] :=
  ⟨by decide, by decide⟩

/-- The validation loop succeeds when every source path exists and is a file. -/
theorem validateFiles_ok (files : List SourceFile)
    (h : ∀ f ∈ files, f.pathExists = true ∧ f.isFile = true) :
    validateFiles files = .ok () := by
  induction files with
  | nil => rfl
  | cons f rest ih =>
    obtain ⟨he, hf⟩ := h f (by simp)
    unfold validateFiles
    simp only [he, hf, Bool.not_true, Bool.false_eq_true, if_false]
    exact ih (fun g hg => h g (List.mem_cons_of_mem _ hg))

/-- The counting loop raises the per-archive "No image files found in CBZ"
error as soon as some archive in the list has no recognized image, provided
every archive opens. -/
theorem countImagesE_err_of_empty (files : List SourceFile)
    (hz : ∀ f ∈ files, f.zipError = none)
    (hx : ∃ f ∈ files, imageFilter f.entries = []) :
    countImagesE files =
      .error (.CBZProcessingError "No image files found in CBZ") := by
  induction files with
  | nil => simp at hx
  | cons f rest ih =>
    have hopen : openZip f = .ok f.entries := by
      unfold openZip
      rw [hz f (by simp)]
    by_cases hf : imageFilter f.entries = []
    · have hs : sorted_images f.entries =
          .error (.CBZProcessingError "No image files found in CBZ") := by
        unfold sorted_images
        rw [hf]
        rfl
      simp only [countImagesE, hopen, hs]
    · obtain ⟨g, hg, hge⟩ := hx
      rcases List.mem_cons.mp hg with rfl | hg'
      · exact absurd hge hf
      · have hne : (imageFilter f.entries).isEmpty = false := by
          cases hh : imageFilter f.entries
          · exact absurd hh hf
          · rfl
        have hs : sorted_images f.entries =
            .ok ((imageFilter f.entries).insertionSort imgle) := by
          unfold sorted_images
          rw [hne]
          rfl
        simp only [countImagesE, hopen, hs,
          ih (fun g hg => hz g (List.mem_cons_of_mem _ hg)) ⟨g, hg', hge⟩]

/-- C8: when the combined recognized-image count over the (readable) sources,
plus one for a supplied cover, is zero, `process_cbz_images` fails with a
"no images" `CBZProcessingError` and the output location is never touched. -/
theorem process_zero_images_fails (eo : Nat → Nat → Bool) (co : Bool)
    (files : List SourceFile) (cover : Option CoverFile)
    (hv : ∀ f ∈ files, f.pathExists = true ∧ f.isFile = true ∧ f.zipError = none)
    (h0 : countImagesTotal files +
        (match cover with | some _ => 1 | none => 0) = 0) :
    ∃ m, (process_cbz_images eo co files cover).result =
        .error (.CBZProcessingError m)
      ∧ (m = "No image files found in CBZ" ∨ m = "No images found in any CBZ files")
      ∧ (process_cbz_images eo co files cover).outputTouched = false := by
  cases cover with
  | some c =>
    have h0' : countImagesTotal files + 1 = 0 := h0
    omega
  | none =>
    cases files with
    | nil =>
      exact ⟨"No images found in any CBZ files", rfl, Or.inr rfl, rfl⟩
    | cons f rest =>
      have hfe : imageFilter f.entries = [] := by
        have h0' := h0
        simp only [countImagesTotal, List.map_cons, List.sum_cons] at h0'
        have hlen : (imageFilter f.entries).length = 0 := by omega
        exact List.length_eq_zero.mp hlen
      have hcnt := countImagesE_err_of_empty (f :: rest)
        (fun g hg => (hv g hg).2.2) ⟨f, by simp, hfe⟩
      have hval := validateFiles_ok (f :: rest)
        (fun g hg => ⟨(hv g hg).1, (hv g hg).2.1⟩)
      refine ⟨"No image files found in CBZ", ?_, Or.inl rfl, ?_⟩ <;>
        simp only [process_cbz_images, processPrepare, hval, hcnt, checkCover]

/-- C8 witness: an empty source list with no cover makes the total zero and
the call fails before touching the output path. -/
theorem process_zero_images_fails_witness :
    ∃ m, (process_cbz_images allOk true [] none).result =
        .error (.CBZProcessingError m)
      ∧ (m = "No image files found in CBZ" ∨ m = "No images found in any CBZ files")
      ∧ (process_cbz_images allOk true [] none).outputTouched = false :=
  process_zero_images_fails allOk true [] none (by simp) (by decide)

/-- C9: a single source archive with no recognized image entry makes the whole
call fail during the initial counting pass with the per-archive
`sorted_images` error — even when every other archive holds images and an
existing cover is supplied — and the output location is never touched. -/
theorem process_rejects_empty_archive (eo : Nat → Nat → Bool) (co : Bool)
    (files : List SourceFile) (cover : Option CoverFile)
    (hv : ∀ f ∈ files, f.pathExists = true ∧ f.isFile = true ∧ f.zipError = none)
    (hex : ∃ f ∈ files, imageFilter f.entries = [])
    (hc : cover = none ∨ ∃ c, cover = some c ∧ c.pathExists = true) :
    (process_cbz_images eo co files cover).result =
      .error (.CBZProcessingError "No image files found in CBZ")
    ∧ (process_cbz_images eo co files cover).outputTouched = false := by
  have hval := validateFiles_ok files (fun g hg => ⟨(hv g hg).1, (hv g hg).2.1⟩)
  have hcnt := countImagesE_err_of_empty files (fun g hg => (hv g hg).2.2) hex
  have hcc : checkCover cover = .ok () := by
    rcases hc with rfl | ⟨c, rfl, hce⟩
    · rfl
    · simp [checkCover, hce]
  constructor <;>
    simp only [process_cbz_images, processPrepare, hval, hcc, hcnt]

/-- C9 witness: the second archive holds no recognized image, the first does,
and a cover exists; the call still fails with the counting-pass error. -/
theorem process_rejects_empty_archive_witness :
    (process_cbz_images allOk true
        [⟨"a.cbz", true, true, none, ["x.jpg"]⟩,
         ⟨"b.cbz", true, true, none, ["readme.txt"]⟩]
        (some ⟨"c.jpg", true⟩)).result =
      .error (.CBZProcessingError "No image files found in CBZ")
    ∧ (process_cbz_images allOk true
        [⟨"a.cbz", true, true, none, ["x.jpg"]⟩,
         ⟨"b.cbz", true, true, none, ["readme.txt"]⟩]
        (some ⟨"c.jpg", true⟩)).outputTouched = false :=
  process_rejects_empty_archive allOk true
    [⟨"a.cbz", true, true, none, ["x.jpg"]⟩,
     ⟨"b.cbz", true, true, none, ["readme.txt"]⟩]
    (some ⟨"c.jpg", true⟩) (by decide) (by decide) (by decide)

/-- C10: whenever `process_cbz_images` fails — for any source list, cover and
I/O oracles — the output location is untouched: no output archive is written
and its parent directory is not created; those effects happen only in the
final write branch, which the failing run never reaches. -/
theorem process_error_no_output (eo : Nat → Nat → Bool) (co : Bool)
    (files : List SourceFile) (cover : Option CoverFile) (e : CbzError) :
    (process_cbz_images eo co files cover).result = .error e →
    (process_cbz_images eo co files cover).outputTouched = false := by
  intro h
  unfold process_cbz_images at h ⊢
  cases hp : processPrepare eo co files cover
  · rfl
  · rw [hp] at h
    exact Except.noConfusion h

/-- C10 witness: a nonexistent source path fails validation, and the output
location stays untouched. -/
theorem process_error_no_output_witness :
    (process_cbz_images allOk true [⟨"missing.cbz", false, true, none, []⟩]
        none).outputTouched = false :=
  process_error_no_output allOk true [⟨"missing.cbz", false, true, none, []⟩]
    none (.CBZProcessingError "Input CBZ file not found: missing.cbz")
    (by decide)

/-- The file of a chapter-scan failure together with the stringified
exception, when the file's name fails extraction. -/
def chapterFailOf (f : CbzEntry) : Option (String × String) :=
  match extract_chapter_number f.name with
  | .error (.ChapterExtractionError m) => some (f.name, m)
  | _ => none

/-- The failure component of the chapter scan accumulates exactly the failing
files, in discovery order. -/
theorem scanChaptersGo_failures :
    ∀ (files : List CbzEntry) (acc : List (Int × CbzEntry) × List (String × String)),
      (scanChaptersGo acc files).2 = acc.2 ++ files.filterMap chapterFailOf
  | [], acc => by simp [scanChaptersGo]
  | f :: rest, acc => by
    cases he : extract_chapter_number f.name with
    | ok n =>
      have hco : chapterFailOf f = none := by
        unfold chapterFailOf
        rw [he]
      simp [scanChaptersGo, he, hco, scanChaptersGo_failures rest]
    | error err =>
      cases err with
      | ChapterExtractionError m =>
        have hco : chapterFailOf f = some (f.name, m) := by
          unfold chapterFailOf
          rw [he]
        simp [scanChaptersGo, he, hco, scanChaptersGo_failures rest]
      | CBZProcessingError m =>
        have hco : chapterFailOf f = none := by
          unfold chapterFailOf
          rw [he]
        simp [scanChaptersGo, he, hco, scanChaptersGo_failures rest]
      | InvalidJSONError m =>
        have hco : chapterFailOf f = none := by
          unfold chapterFailOf
          rw [he]
        simp [scanChaptersGo, he, hco, scanChaptersGo_failures rest]

/-- Each mapped piece of a concatenation is a contiguous piece of the whole, witnessed
by an explicit prefix/suffix decomposition. -/
theorem strConcat_decomp {α : Type} (g : α → String) :
    ∀ (L : List α) (x : α), x ∈ L →
      ∃ pre post, strConcat (L.map g) = pre ++ g x ++ post
  | y :: rest, x, hx => by
    rcases List.mem_cons.mp hx with rfl | hx'
    · refine ⟨"", strConcat (rest.map g), ?_⟩
      simp [strConcat, String.empty_append]
    · obtain ⟨pre, post, hpp⟩ := strConcat_decomp g rest x hx'
      refine ⟨g y ++ pre, post, ?_⟩
      simp [strConcat, hpp, String.append_assoc]

/-- C5: when the input is a directory holding at least one `*.cbz` file and
any filename fails chapter extraction, the whole regroup run fails with an
`InvalidJSONError` whose message embeds every failing filename with its
reason (failures are accumulated over all files, in discovery order), and it
fails before any tome is processed or written. -/
theorem regroup_accumulates_extraction_failures
    (inputPath series pfx : String) (coverExists : String → Bool)
    (files : List CbzEntry) (infos : JValue)
    (hne : files ≠ [])
    (hfail : (scanChapters files).2 ≠ []) :
    regroup_cbz false inputPath files infos series pfx coverExists =
      ⟨.error (.InvalidJSONError (extractFailMsg (scanChapters files).2)), [], []⟩
    ∧ (scanChapters files).2 = files.filterMap chapterFailOf
    ∧ ∀ p ∈ (scanChapters files).2, ∃ pre post,
        extractFailMsg (scanChapters files).2 =
          pre ++ ("  - " ++ p.1 ++ ": " ++ p.2 ++ "\n") ++ post := by
  have hchar : (scanChapters files).2 = files.filterMap chapterFailOf := by
    simpa using scanChaptersGo_failures files ([], [])
  refine ⟨?_, hchar, ?_⟩
  · have h1 : files.isEmpty = false := by
      cases files
      · exact absurd rfl hne
      · rfl
    have h2 : (scanChapters files).2.isEmpty = false := by
      cases hh : (scanChapters files).2
      · exact absurd hh hfail
      · rfl
    simp [regroup_cbz, h1, h2]
  · intro p hp
    obtain ⟨pre, post, hpp⟩ :=
      strConcat_decomp (fun q : String × String => "  - " ++ q.1 ++ ": " ++ q.2 ++ "\n")
        (scanChapters files).2 p hp
    refine ⟨"Failed to extract chapter numbers from the following files:\n" ++ pre,
      post, ?_⟩
    simp only [extractFailMsg, String.append_assoc] at hpp ⊢
    rw [hpp]

/-- C5 witness: one discovered file whose name fails extraction makes the run
fail with the accumulated message, before any tome processing. -/
theorem regroup_accumulates_extraction_failures_witness :
    regroup_cbz false "in" [⟨"random.cbz", none, ["a.jpg"]⟩] (.obj []) "S" ""
        (fun _ => false) =
      ⟨.error (.InvalidJSONError
        (extractFailMsg (scanChapters [⟨"random.cbz", none, ["a.jpg"]⟩]).2)), [], []⟩
    ∧ (scanChapters [⟨"random.cbz", none, ["a.jpg"]⟩]).2 =
        [⟨"random.cbz", none, ["a.jpg"]⟩].filterMap chapterFailOf
    ∧ ∀ p ∈ (scanChapters [⟨"random.cbz", none, ["a.jpg"]⟩]).2, ∃ pre post,
        extractFailMsg (scanChapters [⟨"random.cbz", none, ["a.jpg"]⟩]).2 =
          pre ++ ("  - " ++ p.1 ++ ": " ++ p.2 ++ "\n") ++ post :=
  regroup_accumulates_extraction_failures "in" "S" "" (fun _ => false)
    [⟨"random.cbz", none, ["a.jpg"]⟩] (.obj []) (by decide) (by decide)

/-- C6 counterexample: with two tome entries both missing `chapters`, the run
fails naming tome 1 only — the diagnostic for tome 2 is not accumulated into
the failure, contradicting the claim's "diagnostics for all of them are
accumulated"; the failure does occur before any archive is written. -/
theorem regroup_reports_only_first_malformed_tome :
    (regroup_cbz false "in" [⟨"S - 1.cbz", none, ["a.jpg"]⟩]
        (.obj [("tomes", .obj [("1", .obj []), ("2", .obj [])])]) "S" ""
        (fun _ => false)).result =
      .error (.InvalidJSONError (missingChaptersMsg 1))
    ∧ (regroup_cbz false "in" [⟨"S - 1.cbz", none, ["a.jpg"]⟩]
        (.obj [("tomes", .obj [("1", .obj []), ("2", .obj [])])]) "S" ""
        (fun _ => false)).tomesWritten = []
    ∧ strContainsB (missingChaptersMsg 1) "Tome 1" = true
    ∧ strContainsB (missingChaptersMsg 1) "Tome 2" = false :=
  ⟨by decide, by decide, by decide, by decide⟩

/-- Fetching the `tomes` object of a well-shaped configuration. -/
theorem getTomesFields_obj (fs : List (String × JValue)) :
    getTomesFields (JValue.obj [("tomes", JValue.obj fs)]) = .ok fs := rfl

/-- The tome-parsing loop stops at the first malformed entry and raises its
diagnostic, whatever comes later. -/
theorem parseTomesFields_first_error (k : String) (d : JValue) (e : CbzError)
    (he : parseTomeEntry k d = .error e) :
    ∀ (goods rest : List (String × JValue)) (acc : List (Int × Int × Int)),
      (∀ p ∈ goods, ∃ v, parseTomeEntry p.1 p.2 = .ok v) →
      parseTomesFields acc (goods ++ (k, d) :: rest) = .error e
  | [], rest, acc, _ => by
    simp [parseTomesFields, he]
  | (k2, d2) :: gs, rest, acc, hg => by
    obtain ⟨v, hv⟩ := hg (k2, d2) (by simp)
    obtain ⟨n, s2, e2⟩ := v
    simp only [List.cons_append, parseTomesFields, hv]
    exact parseTomesFields_first_error k d e he gs rest _
      (fun p hp => hg p (List.mem_cons_of_mem _ hp))

/-- C6 (amended): a malformed tome entry — missing `chapters`, a `chapters`
value that is not a 2-element pair, a non-integer key or non-integer bounds —
fails the whole run with the `InvalidJSONError` of the FIRST malformed entry
in configuration order, before any archive is written (diagnostics of later
malformed tomes are not accumulated); a configuration without a `tomes` key,
or with an empty `tomes` object, likewise fails with an `InvalidJSONError`. -/
theorem regroup_fails_on_first_malformed_tome
    (inputPath series pfx : String) (coverExists : String → Bool)
    (files : List CbzEntry) (goods rest : List (String × JValue))
    (k : String) (d : JValue) (e : CbzError)
    (hne : files ≠ [])
    (hok : (scanChapters files).2 = [])
    (hg : ∀ p ∈ goods, ∃ v, parseTomeEntry p.1 p.2 = .ok v)
    (he : parseTomeEntry k d = .error e) :
    regroup_cbz false inputPath files
        (.obj [("tomes", .obj (goods ++ (k, d) :: rest))]) series pfx coverExists =
      ⟨.error e, [], []⟩
    ∧ regroup_cbz false inputPath files (.obj []) series pfx coverExists =
        ⟨.error (.InvalidJSONError missingTomesMsg), [], []⟩
    ∧ regroup_cbz false inputPath files (.obj [("tomes", .obj [])]) series pfx
        coverExists =
        ⟨.error (.InvalidJSONError "No tomes found in JSON configuration"), [], []⟩ := by
  have h1 : files.isEmpty = false := by
    cases files
    · exact absurd rfl hne
    · rfl
  have h2 : (scanChapters files).2.isEmpty = true := by
    rw [hok]
    rfl
  have hparse := parseTomesFields_first_error k d e he goods rest [] hg
  refine ⟨?_, ?_, ?_⟩
  · simp [regroup_cbz, h1, h2, getTomesFields_obj, hparse]
  · simp [regroup_cbz, h1, h2]
    rfl
  · simp [regroup_cbz, h1, h2, getTomesFields_obj, parseTomesFields]

/-- C6 amended witness: a single tome entry missing `chapters` fails the run
with the tome-1 diagnostic; the missing-`tomes` and empty-`tomes` shapes fail
too. -/
theorem regroup_fails_on_first_malformed_tome_witness :
    regroup_cbz false "in" [⟨"S - 1.cbz", none, ["a.jpg"]⟩]
        (.obj [("tomes", .obj [("1", .obj [])])]) "S" "" (fun _ => false) =
      ⟨.error (.InvalidJSONError (missingChaptersMsg 1)), [], []⟩
    ∧ regroup_cbz false "in" [⟨"S - 1.cbz", none, ["a.jpg"]⟩] (.obj []) "S" ""
        (fun _ => false) =
        ⟨.error (.InvalidJSONError missingTomesMsg), [], []⟩
    ∧ regroup_cbz false "in" [⟨"S - 1.cbz", none, ["a.jpg"]⟩]
        (.obj [("tomes", .obj [])]) "S" "" (fun _ => false) =
        ⟨.error (.InvalidJSONError "No tomes found in JSON configuration"), [], []⟩ :=
  regroup_fails_on_first_malformed_tome "in" "S" "" (fun _ => false)
    [⟨"S - 1.cbz", none, ["a.jpg"]⟩] [] [] "1" (.obj [])
    (.InvalidJSONError (missingChaptersMsg 1))
    (by decide) (by decide) (by simp) (by decide)

/-- The collection loop splits the tome's range into the chapters present in
the index (in ascending range order) and the missing chapter numbers. -/
theorem collectTomeGo_spec (chapters : List (Int × CbzEntry)) :
    ∀ (L : List Int) (acc : List CbzEntry × List Int),
      collectTomeGo chapters L acc =
        (acc.1 ++ L.filterMap (assocGetI chapters),
         acc.2 ++ L.filter (fun c => (assocGetI chapters c).isNone))
  | [], acc => by simp [collectTomeGo]
  | c :: cs, acc => by
    cases hc : assocGetI chapters c
    · simp [collectTomeGo, hc, collectTomeGo_spec chapters cs]
    · simp [collectTomeGo, hc, collectTomeGo_spec chapters cs]

/-- C7: for every tome range, the collected archives are exactly those of the
chapters in `start..end` present in the chapter index, in ascending order,
and the missing list is exactly the absent chapter numbers; on the spec's
example — chapters 1, 2, 3, 5 on disk and range [1, 5] — the run succeeds,
produces the tome from chapters 1, 2, 3, 5 in that order, and warns about
exactly chapter 4. -/
theorem regroup_collects_existing_chapters_and_warns :
    (∀ chapters s e, collectTome chapters s e =
        ((intRange s e).filterMap (assocGetI chapters),
         (intRange s e).filter (fun c => (assocGetI chapters c).isNone)))
    ∧ (regroup_cbz false "in"
        [⟨"S - 1.cbz", none, ["c1.jpg"]⟩, ⟨"S - 2.cbz", none, ["c2.jpg"]⟩,
         ⟨"S - 3.cbz", none, ["c3.jpg"]⟩, ⟨"S - 5.cbz", none, ["c5.jpg"]⟩]
        (.obj [("tomes", .obj [("1", .obj [("chapters", .arr [.num 1, .num 5])])])])
        "S" "" (fun _ => false)).result = .ok ()
    ∧ (regroup_cbz false "in"
        [⟨"S - 1.cbz", none, ["c1.jpg"]⟩, ⟨"S - 2.cbz", none, ["c2.jpg"]⟩,
         ⟨"S - 3.cbz", none, ["c3.jpg"]⟩, ⟨"S - 5.cbz", none, ["c5.jpg"]⟩]
        (.obj [("tomes", .obj [("1", .obj [("chapters", .arr [.num 1, .num 5])])])])
        "S" "" (fun _ => false)).warnings = [.missingChapters 1 [4]]
    ∧ (regroup_cbz false "in"
        [⟨"S - 1.cbz", none, ["c1.jpg"]⟩, ⟨"S - 2.cbz", none, ["c2.jpg"]⟩,
         ⟨"S - 3.cbz", none, ["c3.jpg"]⟩, ⟨"S - 5.cbz", none, ["c5.jpg"]⟩]
        (.obj [("tomes", .obj [("1", .obj [("chapters", .arr [.num 1, .num 5])])])])
        "S" "" (fun _ => false)).tomesWritten =
      [("S - Tome 1.cbz",
        [("001.jpg", .img 0 "c1.jpg"), ("002.jpg", .img 1 "c2.jpg"),
         ("003.jpg", .img 2 "c3.jpg"), ("004.jpg", .img 3 "c5.jpg")])] := by
  refine ⟨?_, by decide, by decide, by decide⟩
  intro chapters s e
  simpa [collectTome] using collectTomeGo_spec chapters (intRange s e) ([], [])

end CbzConvertor
